import Mathlib

/-!
Shallow embedding of the authentication-and-profile backend in `server.js`
(OTP issuance and verification, signup, login, password reset, profile
read/write), together with theorems settling the specification claims.

JavaScript values that matter to the handlers (request-body fields and
database cells) are modelled explicitly, including JS truthiness; the
in-memory OTP object `otps` is modelled as an association list with JS
object-assignment semantics (assignment replaces the entry for an existing
key); timestamps are milliseconds as natural numbers; `Math.random()` is
modelled as a rational `num / den` with `num < den`.
-/

namespace Demo

/-- A JavaScript primitive value as it occurs in request bodies and
database cells. -/
inductive JsPrim where
  | vundef
  | vnull
  | vstr (s : String)
  | vnum (n : Int)
deriving DecidableEq, Repr

/-- JS truthiness of a primitive: `undefined`, `null`, `""` and `0` are
falsy, everything else here is truthy. -/
def JsPrim.truthy : JsPrim → Bool
  | .vundef => false
  | .vnull => false
  | .vstr s => s != ""
  | .vnum n => n != 0

/-- One pending OTP challenge: `otps[email] = { otp, expiresAt }`. -/
structure OtpEntry where
  otp : String
  expiresAt : Nat
deriving DecidableEq, Repr

/-- The in-memory OTP registry `const otps = {}`, email → entry, with
object-key semantics (at most one entry per key, kept as an assoc list). -/
abbrev Otps := List (String × OtpEntry)

/-- JS object assignment `otps[k] = v`: replaces the entry for an existing
key in place, otherwise appends a new one. -/
def otpsSet (m : Otps) (k : String) (v : OtpEntry) : Otps :=
  if m.any (fun p => p.1 == k) then
    m.map (fun p => if p.1 == k then (k, v) else p)
  else
    m ++ [(k, v)]

/-- JS `delete otps[k]`. -/
def otpsDel (m : Otps) (k : String) : Otps :=
  m.filter (fun p => p.1 != k)

/-- The keys currently present in the registry. -/
def otpsKeys (m : Otps) : List String :=
  m.map Prod.fst

/-- `generateOtp`: `Math.floor(100000 + Math.random() * 900000).toString()`,
with the random double in `[0,1)` modelled as `num / den`. -/
def generateOtp (num den : Nat) : String :=
  Nat.repr (100000 + num * 900000 / den)

/-- Modelled from the spec: the hashing primitive is an external collaborator
("one-way salted hash(plaintext) -> hash, and verify(plaintext, hash) ->
boolean").  A hash value is an opaque record, type-distinct from the
plaintext string; `bcrypt.hash` packs the salt with the hashed plaintext
and `bcrypt.compare` checks a submitted plaintext against it. -/
structure BcryptHash where
  salt : Nat
  hashedPlain : String
deriving DecidableEq, Repr

/-- `bcrypt.hash(plain, SALT_ROUNDS)` with the drawn salt made explicit. -/
def bcryptHash (plain : String) (salt : Nat) : BcryptHash :=
  ⟨salt, plain⟩

/-- `bcrypt.compare(plain, hash)`. -/
def bcryptCompare (plain : String) (h : BcryptHash) : Bool :=
  plain == h.hashedPlain

/-- One row of the `users` table.  Profile columns are nullable
(`none` = SQL NULL); a freshly inserted row has them all NULL. -/
structure UserRow where
  id : Nat
  email : String
  password_hash : BcryptHash
  name : Option JsPrim := none
  phone : Option JsPrim := none
  age : Option JsPrim := none
  age_group : Option JsPrim := none
  dob : Option JsPrim := none
  country : Option JsPrim := none
  state : Option JsPrim := none
  city : Option JsPrim := none
  pincode : Option JsPrim := none
  role : Option JsPrim := none
  work_tags : Option String := none
deriving DecidableEq, Repr

/-- The whole mutable state a request can see: the OTP registry, the
`users` table, the `login_events` table (user ids), and the next fresh
row id the database would assign. -/
structure St where
  otps : Otps
  users : List UserRow
  login_events : List Nat
  nextId : Nat
deriving DecidableEq, Repr

/-- `getUserByEmail`: `select ... from users where email = ${email}`,
first matching row. -/
def getUserByEmail (users : List UserRow) (email : String) : Option UserRow :=
  users.find? (fun u => u.email == email)

/-- An HTTP response: `res.json` (200) or `res.status(code).json`. -/
inductive Resp where
  | ok (message : String)
  | err (status : Nat) (message : String)
deriving DecidableEq, Repr

/-- JS truthiness of a request-body field that is a string when present
(`undefined` when absent). -/
def strTruthy : Option String → Bool
  | none => false
  | some s => s != ""

/-- The OTP gate shared verbatim by signup and reset-password:
`!record || record.otp !== otp || record.expiresAt < Date.now()`.
`true` means the request is rejected. -/
def otpGateFails (otps : Otps) (email otp : String) (now : Nat) : Bool :=
  match List.lookup email otps with
  | none => true
  | some record => record.otp != otp || decide (record.expiresAt < now)

/-- Result of the `POST /api/send-otp` handler: the response, the new
state, and the payload handed to the email transport (if reached). -/
structure SendOtpResult where
  resp : Resp
  st : St
  emailed : Option (String × String)
deriving DecidableEq, Repr

/-- `POST /api/send-otp`: validate, generate, store the entry (before the
send is attempted), then await the email transport, whose outcome is the
environment flag `emailOk`. -/
def sendOtp (st : St) (email : Option String) (num den : Nat)
    (emailOk : Bool) (now : Nat) : SendOtpResult :=
  if !strTruthy email then
    ⟨.err 400 "Email is required for OTP", st, none⟩
  else
    let e := email.getD ""
    let otp := generateOtp num den
    let st' := { st with otps := otpsSet st.otps e ⟨otp, now + 5 * 60 * 1000⟩ }
    if emailOk then
      ⟨.ok "OTP sent to your email", st', some (e, otp)⟩
    else
      ⟨.err 500 "Failed to send email OTP", st', some (e, otp)⟩

/-- `POST /api/signup`: validate, OTP gate, duplicate check, hash, insert,
and only then delete the OTP entry. -/
def signup (st : St) (email password otp : Option String)
    (salt : Nat) (now : Nat) : Resp × St :=
  if !strTruthy email || !strTruthy password || !strTruthy otp then
    (.err 400 "Email, password and OTP are required", st)
  else
    let e := email.getD ""
    let code := otp.getD ""
    if otpGateFails st.otps e code now then
      (.err 400 "Invalid or expired OTP", st)
    else
      match getUserByEmail st.users e with
      | some _ => (.err 400 "User already exists, please login", st)
      | none =>
        let passwordHash := bcryptHash (password.getD "") salt
        let row : UserRow := { id := st.nextId, email := e, password_hash := passwordHash }
        (.ok "Signup successful",
          { st with users := st.users ++ [row], nextId := st.nextId + 1,
                    otps := otpsDel st.otps e })

/-- `POST /api/login`: validate, look up, constant-time compare, append a
login event on success.  Never touches the OTP registry. -/
def login (st : St) (email password : Option String) : Resp × St :=
  if !strTruthy email || !strTruthy password then
    (.err 400 "Email and password are required", st)
  else
    let e := email.getD ""
    match getUserByEmail st.users e with
    | none => (.err 404 "User not found, please sign up", st)
    | some user =>
      if !bcryptCompare (password.getD "") user.password_hash then
        (.err 400 "Invalid password", st)
      else
        (.ok "Login successful",
          { st with login_events := st.login_events ++ [user.id] })

/-- `POST /api/reset-password`: validate, OTP gate, look up, hash the new
password, overwrite the stored hash for that row id, then delete the OTP
entry. -/
def resetPassword (st : St) (email otp newPassword : Option String)
    (salt : Nat) (now : Nat) : Resp × St :=
  if !strTruthy email || !strTruthy otp || !strTruthy newPassword then
    (.err 400 "Email, OTP and new password are required", st)
  else
    let e := email.getD ""
    let code := otp.getD ""
    if otpGateFails st.otps e code now then
      (.err 400 "Invalid or expired OTP", st)
    else
      match getUserByEmail st.users e with
      | none => (.err 404 "User not found", st)
      | some user =>
        let newHash := bcryptHash (newPassword.getD "") salt
        let users' := st.users.map (fun r =>
          if r.id == user.id then { r with password_hash := newHash } else r)
        (.ok "Password reset successful",
          { st with users := users', otps := otpsDel st.otps e })

/-- The `workTags` request-body field: an array of strings, a single
non-array value, or absent. -/
inductive TagsVal where
  | absent
  | single (s : String)
  | arr (xs : List String)
deriving DecidableEq, Repr

/-- `Array.isArray(workTags) ? workTags : workTags ? [workTags] : []`. -/
def normTags : TagsVal → List String
  | .arr xs => xs
  | .single s => if s == "" then [] else [s]
  | .absent => []

/-- JS `s.split(',')` at the character-list level: split on every comma,
keeping empty segments (`"" ↦ [""]`, `"a," ↦ ["a", ""]`). -/
def splitCommaAux : List Char → List (List Char)
  | [] => [[]]
  | c :: rest =>
    match splitCommaAux rest with
    | [] => [[c]]
    | h :: t => if c == ',' then [] :: h :: t else (c :: h) :: t

/-- JS `xs.join(',')` at the character-list level. -/
def joinCommaAux : List (List Char) → List Char
  | [] => []
  | [x] => x
  | x :: y :: t => x ++ ',' :: joinCommaAux (y :: t)

/-- JS `s.split(',')`. -/
def jsSplitComma (s : String) : List String :=
  (splitCommaAux s.data).map (fun cs => String.mk cs)

/-- JS `xs.join(',')`. -/
def jsJoinComma (xs : List String) : String :=
  String.mk (joinCommaAux (xs.map String.data))

/-- The response view of a user assembled by `GET /api/user`
(`safeUser`). -/
structure SafeUser where
  id : Nat
  email : String
  name : JsPrim
  phone : JsPrim
  age : JsPrim
  ageGroup : JsPrim
  dob : JsPrim
  country : JsPrim
  state : JsPrim
  city : JsPrim
  pincode : JsPrim
  role : JsPrim
  workTags : List String
deriving DecidableEq, Repr

/-- `cell || ''`: a NULL or falsy database cell is presented as the empty
string, a truthy one as itself. -/
def cellOrEmpty : Option JsPrim → JsPrim
  | some p => if p.truthy then p else .vstr ""
  | none => .vstr ""

/-- `GET /api/user`: look the row up and reshape it into `safeUser`;
`work_tags` is split on commas with empty segments filtered out
(`user.work_tags ? user.work_tags.split(',').filter(Boolean) : []`). -/
def getUser (st : St) (email : Option String) : Resp × Option SafeUser :=
  if !strTruthy email then
    (.err 400 "Email is required", none)
  else
    let e := email.getD ""
    match getUserByEmail st.users e with
    | none => (.err 404 "User not found", none)
    | some user =>
      let workTagsArray :=
        match user.work_tags with
        | some s => if s == "" then [] else (jsSplitComma s).filter (fun t => t != "")
        | none => []
      (.ok "",
        some { id := user.id, email := user.email,
               name := cellOrEmpty user.name, phone := cellOrEmpty user.phone,
               age := cellOrEmpty user.age, ageGroup := cellOrEmpty user.age_group,
               dob := cellOrEmpty user.dob, country := cellOrEmpty user.country,
               state := cellOrEmpty user.state, city := cellOrEmpty user.city,
               pincode := cellOrEmpty user.pincode, role := cellOrEmpty user.role,
               workTags := workTagsArray })

/-- The `POST /api/profile` request body. -/
structure ProfileBody where
  email : Option String
  name : JsPrim := .vundef
  phone : JsPrim := .vundef
  age : JsPrim := .vundef
  ageGroup : JsPrim := .vundef
  dob : JsPrim := .vundef
  country : JsPrim := .vundef
  state : JsPrim := .vundef
  city : JsPrim := .vundef
  pincode : JsPrim := .vundef
  role : JsPrim := .vundef
  workTags : TagsVal := .absent
deriving DecidableEq, Repr

/-- `${v || null}`: a falsy submitted value is stored as SQL NULL. -/
def orNull (v : JsPrim) : Option JsPrim :=
  if v.truthy then some v else none

/-- `POST /api/profile`: normalize `workTags`, look the row up, and
overwrite every profile column of that row (`field || null`,
`tagsString || null`). -/
def saveProfile (st : St) (body : ProfileBody) : Resp × St :=
  if !strTruthy body.email then
    (.err 400 "Email is required", st)
  else
    let e := body.email.getD ""
    let tagsArray := normTags body.workTags
    let tagsString := jsJoinComma tagsArray
    match getUserByEmail st.users e with
    | none => (.err 404 "User not found", st)
    | some user =>
      let users' := st.users.map (fun r =>
        if r.id == user.id then
          { r with
            name := orNull body.name, phone := orNull body.phone,
            age := orNull body.age, age_group := orNull body.ageGroup,
            dob := orNull body.dob, country := orNull body.country,
            state := orNull body.state, city := orNull body.city,
            pincode := orNull body.pincode, role := orNull body.role,
            work_tags := if tagsString == "" then none else some tagsString }
        else r)
      (.ok "Profile saved", { st with users := users' })

/-- One inbound request to the stateful endpoints, with its environment
(random draw, email-transport outcome, bcrypt salt, clock). -/
inductive Op where
  | opSendOtp (email : Option String) (num den : Nat) (emailOk : Bool) (now : Nat)
  | opSignup (email password otp : Option String) (salt now : Nat)
  | opLogin (email password : Option String)
  | opReset (email otp newPassword : Option String) (salt now : Nat)
  | opSaveProfile (body : ProfileBody)

/-- The state transition performed by one request. -/
def applyOp (st : St) : Op → St
  | .opSendOtp e n d ok now => (sendOtp st e n d ok now).st
  | .opSignup e p o s now => (signup st e p o s now).2
  | .opLogin e p => (login st e p).2
  | .opReset e o np s now => (resetPassword st e o np s now).2
  | .opSaveProfile body => (saveProfile st body).2

/-- Run a whole sequence of requests. -/
def runOps (st : St) (ops : List Op) : St :=
  ops.foldl applyOp st
/-! ### Registry helper lemmas -/

theorem lookup_cons_self (k : String) (v : OtpEntry) (t : Otps) :
    List.lookup k ((k, v) :: t) = some v := by
  rw [List.lookup_cons]
  simp

theorem lookup_cons_ne (k a : String) (v : OtpEntry) (t : Otps) (h : a ≠ k) :
    List.lookup k ((a, v) :: t) = List.lookup k t := by
  rw [List.lookup_cons]
  have : (k == a) = false := by simp [Ne.symm h]
  simp [this]

theorem otpsKeys_set_of_mem (m : Otps) (k : String) (v : OtpEntry)
    (h : m.any (fun p => p.1 == k) = true) :
    otpsKeys (otpsSet m k v) = otpsKeys m := by
  unfold otpsSet
  rw [if_pos h]
  unfold otpsKeys
  rw [List.map_map]
  apply List.map_congr_left
  intro p _
  by_cases hp : p.1 = k
  · simp [hp]
  · simp [hp]

theorem otpsKeys_set_of_not_mem (m : Otps) (k : String) (v : OtpEntry)
    (h : m.any (fun p => p.1 == k) = false) :
    otpsKeys (otpsSet m k v) = otpsKeys m ++ [k] := by
  unfold otpsSet
  rw [if_neg (by simp [h])]
  simp [otpsKeys]

theorem mem_otpsKeys_iff_any (m : Otps) (k : String) :
    k ∈ otpsKeys m ↔ m.any (fun p => p.1 == k) = true := by
  simp only [otpsKeys, List.any_eq_true, List.mem_map, beq_iff_eq]

theorem nodup_otpsKeys_set (m : Otps) (k : String) (v : OtpEntry)
    (h : (otpsKeys m).Nodup) : (otpsKeys (otpsSet m k v)).Nodup := by
  by_cases hm : m.any (fun p => p.1 == k) = true
  · rw [otpsKeys_set_of_mem m k v hm]
    exact h
  · have hm' : m.any (fun p => p.1 == k) = false := Bool.eq_false_iff.mpr hm
    rw [otpsKeys_set_of_not_mem m k v hm']
    have hk : k ∉ otpsKeys m := by
      rw [mem_otpsKeys_iff_any]
      simp [hm']
    simp only [List.nodup_append, List.nodup_singleton, true_and]
    refine ⟨h, ?_⟩
    intro a ha hak
    simp only [List.mem_singleton] at hak
    exact hk (hak ▸ ha)

theorem otpsKeys_del_sublist (m : Otps) (k : String) :
    (otpsKeys (otpsDel m k)).Sublist (otpsKeys m) :=
  List.Sublist.map Prod.fst (List.filter_sublist m)

theorem nodup_otpsKeys_del (m : Otps) (k : String)
    (h : (otpsKeys m).Nodup) : (otpsKeys (otpsDel m k)).Nodup :=
  (otpsKeys_del_sublist m k).nodup h

theorem lookup_map_replace (m : Otps) (k : String) (v : OtpEntry)
    (h : m.any (fun p => p.1 == k) = true) :
    List.lookup k (m.map (fun p => if p.1 == k then (k, v) else p)) = some v := by
  induction m with
  | nil => simp at h
  | cons q t ih =>
    obtain ⟨a, b⟩ := q
    by_cases hq : a = k
    · have hcond : ((a, b).1 == k) = true := by simp [hq]
      simp only [List.map_cons, if_pos hcond]
      exact lookup_cons_self k v _
    · have hcond : ¬(((a, b).1 == k) = true) := by simp [hq]
      have ht : t.any (fun p => p.1 == k) = true := by
        simp only [List.any_cons, Bool.or_eq_true] at h
        rcases h with h | h
        · exact absurd h hcond
        · exact h
      simp only [List.map_cons, if_neg hcond]
      rw [lookup_cons_ne k a b _ hq]
      exact ih ht

theorem lookup_append_not_mem (m : Otps) (k : String) (v : OtpEntry)
    (h : m.any (fun p => p.1 == k) = false) :
    List.lookup k (m ++ [(k, v)]) = some v := by
  induction m with
  | nil => exact lookup_cons_self k v []
  | cons q t ih =>
    obtain ⟨a, b⟩ := q
    simp only [List.any_cons, Bool.or_eq_false_iff] at h
    have ha : a ≠ k := by
      have := h.1
      simp only [beq_eq_false_iff_ne, ne_eq] at this
      exact this
    rw [List.cons_append, lookup_cons_ne k a b _ ha]
    exact ih h.2

theorem lookup_otpsSet_self (m : Otps) (k : String) (v : OtpEntry) :
    List.lookup k (otpsSet m k v) = some v := by
  unfold otpsSet
  by_cases hm : m.any (fun p => p.1 == k) = true
  · rw [if_pos hm]
    exact lookup_map_replace m k v hm
  · rw [if_neg hm]
    exact lookup_append_not_mem m k v (Bool.eq_false_iff.mpr hm)

theorem lookup_otpsDel_self (m : Otps) (k : String) :
    List.lookup k (otpsDel m k) = none := by
  unfold otpsDel
  induction m with
  | nil => rfl
  | cons q t ih =>
    obtain ⟨a, b⟩ := q
    by_cases ha : a = k
    · have : ((a, b).1 != k) = false := by simp [ha]
      simp only [List.filter_cons, this]
      simpa using ih
    · have : ((a, b).1 != k) = true := by simp [ha]
      simp only [List.filter_cons, this, if_pos]
      rw [lookup_cons_ne k a b _ ha]
      exact ih

/-! ### The OTP gate -/

theorem otpGateFails_eq_false_iff (otps : Otps) (email code : String) (now : Nat) :
    otpGateFails otps email code now = false ↔
      ∃ r, List.lookup email otps = some r ∧ r.otp = code ∧ now ≤ r.expiresAt := by
  unfold otpGateFails
  cases h : List.lookup email otps with
  | none => simp
  | some r =>
    simp only [Bool.or_eq_false_iff, bne_eq_false_iff_eq, decide_eq_false_iff_not,
      Nat.not_lt, Option.some.injEq]
    constructor
    · rintro ⟨h1, h2⟩
      exact ⟨r, rfl, h1, h2⟩
    · rintro ⟨r', hr', h1, h2⟩
      subst hr'
      exact ⟨h1, h2⟩

theorem signup_gate_failure (st : St) (e pw code : String) (salt now : Nat)
    (he : e ≠ "") (hpw : pw ≠ "") (hc : code ≠ "")
    (hg : otpGateFails st.otps e code now = true) :
    signup st (some e) (some pw) (some code) salt now =
      (.err 400 "Invalid or expired OTP", st) := by
  simp [signup, strTruthy, he, hpw, hc, hg]

theorem reset_gate_failure (st : St) (e code npw : String) (salt now : Nat)
    (he : e ≠ "") (hc : code ≠ "") (hnpw : npw ≠ "")
    (hg : otpGateFails st.otps e code now = true) :
    resetPassword st (some e) (some code) (some npw) salt now =
      (.err 400 "Invalid or expired OTP", st) := by
  simp [resetPassword, strTruthy, he, hc, hnpw, hg]

/-- C1: the OTP gate used by signup and reset-password accepts a submitted
code iff an entry exists for the identity, the stored code equals the
submitted code by exact string equality, and the current time is at most
the entry's expiry; on any failure (missing entry, mismatch, or expiry)
both handlers leave the state unchanged and report the single merged
failure `400 "Invalid or expired OTP"`, not distinguishing invalid from
expired. -/
theorem otp_gate_accepts_iff_exact_match_unexpired :
    (∀ (otps : Otps) (email code : String) (now : Nat),
        otpGateFails otps email code now = false ↔
          ∃ r, List.lookup email otps = some r ∧ r.otp = code ∧ now ≤ r.expiresAt)
    ∧ (∀ (st : St) (e pw code : String) (salt now : Nat),
        e ≠ "" → pw ≠ "" → code ≠ "" →
        otpGateFails st.otps e code now = true →
        signup st (some e) (some pw) (some code) salt now =
          (.err 400 "Invalid or expired OTP", st))
    ∧ (∀ (st : St) (e code npw : String) (salt now : Nat),
        e ≠ "" → code ≠ "" → npw ≠ "" →
        otpGateFails st.otps e code now = true →
        resetPassword st (some e) (some code) (some npw) salt now =
          (.err 400 "Invalid or expired OTP", st)) := by
  refine ⟨otpGateFails_eq_false_iff, ?_, ?_⟩
  · intro st e pw code salt now he hpw hc hg
    exact signup_gate_failure st e pw code salt now he hpw hc hg
  · intro st e code npw salt now he hc hnpw hg
    exact reset_gate_failure st e code npw salt now he hc hnpw hg

/-- Witness for C1 at concrete inputs: an expired entry is rejected by
signup with the merged failure kind and the state is unchanged, and an
in-date matching entry passes the gate. -/
theorem otp_gate_accepts_iff_exact_match_unexpired_witness :
    (signup ⟨[("a@x.com", ⟨"123456", 100⟩)], [], [], 0⟩
        (some "a@x.com") (some "pw") (some "123456") 0 101 =
      (.err 400 "Invalid or expired OTP", ⟨[("a@x.com", ⟨"123456", 100⟩)], [], [], 0⟩))
    ∧ (otpGateFails [("a@x.com", ⟨"123456", 100⟩)] "a@x.com" "123456" 100 = false ↔
        ∃ r, List.lookup "a@x.com" [("a@x.com", OtpEntry.mk "123456" 100)] = some r ∧
          r.otp = "123456" ∧ 100 ≤ r.expiresAt) :=
  ⟨otp_gate_accepts_iff_exact_match_unexpired.2.1
      ⟨[("a@x.com", ⟨"123456", 100⟩)], [], [], 0⟩ "a@x.com" "pw" "123456" 0 101
      (by decide) (by decide) (by decide) (by decide),
    otp_gate_accepts_iff_exact_match_unexpired.1
      [("a@x.com", ⟨"123456", 100⟩)] "a@x.com" "123456" 100⟩

/-- A concrete state holding a live OTP entry and an already-registered
account for the same identity. -/
def stDupAccount : St :=
  { otps := [("a@x.com", ⟨"123456", 1000⟩)],
    users := [{ id := 1, email := "a@x.com", password_hash := bcryptHash "oldpw" 0 }],
    login_events := [],
    nextId := 2 }

/-- A concrete state holding a live OTP entry but no account at all. -/
def stNoAccount : St :=
  { otps := [("a@x.com", ⟨"123456", 1000⟩)],
    users := [],
    login_events := [],
    nextId := 1 }

/-- Counterexample to C2: at these concrete requests the OTP gate passes
(the stored code matches and the entry is unexpired), the workflow then
fails (duplicate account on signup, identity-not-found on reset-password),
and the OTP entry is NOT deleted — it is still in the registry
afterwards. -/
theorem otp_entry_not_deleted_on_failed_workflow :
    otpGateFails stDupAccount.otps "a@x.com" "123456" 500 = false
    ∧ (signup stDupAccount (some "a@x.com") (some "newpw") (some "123456") 0 500).1 =
        .err 400 "User already exists, please login"
    ∧ List.lookup "a@x.com"
        (signup stDupAccount (some "a@x.com") (some "newpw") (some "123456") 0 500).2.otps =
        some ⟨"123456", 1000⟩
    ∧ otpGateFails stNoAccount.otps "a@x.com" "123456" 500 = false
    ∧ (resetPassword stNoAccount (some "a@x.com") (some "123456") (some "newpw") 0 500).1 =
        .err 404 "User not found"
    ∧ List.lookup "a@x.com"
        (resetPassword stNoAccount (some "a@x.com") (some "123456") (some "newpw") 0 500).2.otps =
        some ⟨"123456", 1000⟩ := by
  decide

/-- C2 (amended): in the signup and reset-password workflows the OTP gate
runs before the storage lookup, but the entry is consumed only when the
workflow fully succeeds: on a gate-passing request the entry is deleted
when signup inserts the new account or reset-password overwrites the
hash, while a gate-passing request that then fails (duplicate account on
signup, identity-not-found on reset-password) leaves the whole state,
including the OTP entry, unchanged. -/
theorem otp_consumed_only_on_workflow_success
    (st : St) (e pw code npw : String) (salt now : Nat)
    (he : e ≠ "") (hpw : pw ≠ "") (hc : code ≠ "") (hnpw : npw ≠ "")
    (hg : otpGateFails st.otps e code now = false) :
    (getUserByEmail st.users e = none →
        List.lookup e (signup st (some e) (some pw) (some code) salt now).2.otps = none)
    ∧ (∀ u, getUserByEmail st.users e = some u →
        (signup st (some e) (some pw) (some code) salt now).2 = st)
    ∧ (∀ u, getUserByEmail st.users e = some u →
        List.lookup e (resetPassword st (some e) (some code) (some npw) salt now).2.otps = none)
    ∧ (getUserByEmail st.users e = none →
        (resetPassword st (some e) (some code) (some npw) salt now).2 = st) := by
  refine ⟨?_, ?_, ?_, ?_⟩
  · intro hu
    simp [signup, strTruthy, he, hpw, hc, hg, hu, lookup_otpsDel_self]
  · intro u hu
    simp [signup, strTruthy, he, hpw, hc, hg, hu]
  · intro u hu
    simp [resetPassword, strTruthy, he, hc, hnpw, hg, hu, lookup_otpsDel_self]
  · intro hu
    simp [resetPassword, strTruthy, he, hc, hnpw, hg, hu]

/-- Witness for the amended C2 at concrete inputs: a gate-passing signup
for a fresh identity consumes the entry, and a gate-passing reset for a
missing identity leaves the state unchanged. -/
theorem otp_consumed_only_on_workflow_success_witness :
    (getUserByEmail stNoAccount.users "a@x.com" = none →
        List.lookup "a@x.com"
          (signup stNoAccount (some "a@x.com") (some "pw") (some "123456") 0 500).2.otps = none)
    ∧ (∀ u, getUserByEmail stNoAccount.users "a@x.com" = some u →
        (signup stNoAccount (some "a@x.com") (some "pw") (some "123456") 0 500).2 = stNoAccount)
    ∧ (∀ u, getUserByEmail stNoAccount.users "a@x.com" = some u →
        List.lookup "a@x.com"
          (resetPassword stNoAccount (some "a@x.com") (some "123456") (some "npw") 0 500).2.otps = none)
    ∧ (getUserByEmail stNoAccount.users "a@x.com" = none →
        (resetPassword stNoAccount (some "a@x.com") (some "123456") (some "npw") 0 500).2 = stNoAccount) :=
  otp_consumed_only_on_workflow_success stNoAccount "a@x.com" "pw" "123456" "npw" 0 500
    (by decide) (by decide) (by decide) (by decide) (by decide)

/-! ### Decimal representation facts for the generated code -/

theorem toDigitsCore_len_eq (fuel : Nat) :
    ∀ (n : Nat) (ds : List Char), 0 < n → n < fuel →
      (Nat.toDigitsCore 10 fuel n ds).length = Nat.log 10 n + 1 + ds.length := by
  induction fuel with
  | zero => intro n ds h0 hf; omega
  | succ fuel ih =>
    intro n ds h0 hf
    simp only [Nat.toDigitsCore]
    by_cases hdiv : n / 10 = 0
    · rw [if_pos hdiv]
      have hn : n < 10 := (Nat.div_eq_zero_iff (by norm_num)).mp hdiv
      have hlog : Nat.log 10 n = 0 := Nat.log_eq_zero_iff.mpr (Or.inl hn)
      simp only [List.length_cons, hlog]
      omega
    · rw [if_neg hdiv]
      have h0' : 0 < n / 10 := Nat.pos_of_ne_zero hdiv
      have hlt : n / 10 < fuel :=
        lt_of_lt_of_le (Nat.div_lt_self h0 (by norm_num)) (Nat.lt_succ_iff.mp hf)
      rw [ih (n / 10) _ h0' hlt]
      have h10 : 10 ≤ n := by
        by_contra hlt10
        exact hdiv (Nat.div_eq_of_lt (by omega))
      have hlogpos : 0 < Nat.log 10 n := Nat.log_pos (by norm_num) h10
      have hlogdiv : Nat.log 10 (n / 10) = Nat.log 10 n - 1 := Nat.log_div_base 10 n
      simp only [List.length_cons, hlogdiv]
      omega

theorem repr_length_eq_log (n : Nat) (h0 : 0 < n) :
    (Nat.repr n).length = Nat.log 10 n + 1 := by
  have h := toDigitsCore_len_eq (n + 1) n [] h0 (Nat.lt_succ_self n)
  simpa [Nat.repr, Nat.toDigits, List.asString, String.length] using h

theorem repr_length_six (n : Nat) (h1 : 100000 ≤ n) (h2 : n ≤ 999999) :
    (Nat.repr n).length = 6 := by
  rw [repr_length_eq_log n (by omega)]
  have hlog : Nat.log 10 n = 5 :=
    Nat.log_eq_of_pow_le_of_lt_pow (by norm_num; omega) (by norm_num; omega)
  omega

theorem digitChar_isDigit (m : Nat) (h : m < 10) : (Nat.digitChar m).isDigit = true := by
  interval_cases m <;> decide

theorem toDigitsCore_all_digits (fuel : Nat) :
    ∀ (n : Nat) (ds : List Char), (∀ c ∈ ds, c.isDigit = true) →
      ∀ c ∈ Nat.toDigitsCore 10 fuel n ds, c.isDigit = true := by
  induction fuel with
  | zero => intro n ds hds c hc; exact hds c hc
  | succ fuel ih =>
    intro n ds hds c hc
    simp only [Nat.toDigitsCore] at hc
    by_cases hdiv : n / 10 = 0
    · rw [if_pos hdiv] at hc
      rcases List.mem_cons.mp hc with h | h
      · subst h
        exact digitChar_isDigit _ (Nat.mod_lt n (by norm_num))
      · exact hds c h
    · rw [if_neg hdiv] at hc
      refine ih (n / 10) (Nat.digitChar (n % 10) :: ds) ?_ c hc
      intro c' hc'
      rcases List.mem_cons.mp hc' with h | h
      · subst h
        exact digitChar_isDigit _ (Nat.mod_lt n (by norm_num))
      · exact hds c' h

theorem repr_all_digits (n : Nat) : ∀ c ∈ (Nat.repr n).data, c.isDigit = true := by
  intro c hc
  have hd : (Nat.repr n).data = Nat.toDigitsCore 10 (n + 1) n [] := rfl
  rw [hd] at hc
  exact toDigitsCore_all_digits (n + 1) n [] (by simp) c hc

theorem toDigitsCore_head (fuel : Nat) :
    ∀ (n : Nat) (ds : List Char), 0 < n → n < fuel →
      (Nat.toDigitsCore 10 fuel n ds).head? =
        some (Nat.digitChar (n / 10 ^ Nat.log 10 n % 10)) := by
  induction fuel with
  | zero => intro n ds h0 hf; omega
  | succ fuel ih =>
    intro n ds h0 hf
    simp only [Nat.toDigitsCore]
    by_cases hdiv : n / 10 = 0
    · rw [if_pos hdiv]
      have hn : n < 10 := (Nat.div_eq_zero_iff (by norm_num)).mp hdiv
      have hlog : Nat.log 10 n = 0 := Nat.log_eq_zero_iff.mpr (Or.inl hn)
      simp [hlog]
    · rw [if_neg hdiv]
      have h0' : 0 < n / 10 := Nat.pos_of_ne_zero hdiv
      have hlt : n / 10 < fuel :=
        lt_of_lt_of_le (Nat.div_lt_self h0 (by norm_num)) (Nat.lt_succ_iff.mp hf)
      rw [ih (n / 10) _ h0' hlt]
      have h10 : 10 ≤ n := by
        by_contra hlt10
        exact hdiv (Nat.div_eq_of_lt (by omega))
      have hlogpos : 0 < Nat.log 10 n := Nat.log_pos (by norm_num) h10
      have hpow : 10 * 10 ^ (Nat.log 10 n - 1) = 10 ^ Nat.log 10 n := by
        calc 10 * 10 ^ (Nat.log 10 n - 1)
            = 10 ^ (Nat.log 10 n - 1) * 10 := Nat.mul_comm 10 _
          _ = 10 ^ (Nat.log 10 n - 1 + 1) := (pow_succ 10 _).symm
          _ = 10 ^ Nat.log 10 n := by rw [Nat.sub_add_cancel hlogpos]
      rw [Nat.log_div_base, Nat.div_div_eq_div_mul, hpow]

theorem repr_head_nonzero (n : Nat) (h1 : 100000 ≤ n) (h2 : n ≤ 999999) :
    (Nat.repr n).data.head? ≠ some '0' := by
  have hd : (Nat.repr n).data = Nat.toDigitsCore 10 (n + 1) n [] := rfl
  rw [hd, toDigitsCore_head (n + 1) n [] (by omega) (Nat.lt_succ_self n)]
  have hlog : Nat.log 10 n = 5 :=
    Nat.log_eq_of_pow_le_of_lt_pow (by norm_num; omega) (by norm_num; omega)
  rw [hlog]
  have hm : n / 10 ^ 5 % 10 = n / 100000 % 10 := by norm_num
  rw [hm]
  have hlb : 1 ≤ n / 100000 % 10 := by omega
  have hub : n / 100000 % 10 ≤ 9 := by omega
  have hne : Nat.digitChar (n / 100000 % 10) ≠ '0' := by
    set m := n / 100000 % 10 with hmm
    clear_value m
    interval_cases m <;> decide
  simp [hne]

theorem sendOtp_st_eq (st : St) (e : String) (num den : Nat) (emailOk : Bool)
    (now : Nat) (he : e ≠ "") :
    (sendOtp st (some e) num den emailOk now).st =
      { st with otps := otpsSet st.otps e ⟨generateOtp num den, now + 5 * 60 * 1000⟩ } := by
  cases emailOk <;> simp [sendOtp, strTruthy, he]

theorem sendOtp_emailed_eq (st : St) (e : String) (num den : Nat) (emailOk : Bool)
    (now : Nat) (he : e ≠ "") :
    (sendOtp st (some e) num den emailOk now).emailed = some (e, generateOtp num den) := by
  cases emailOk <;> simp [sendOtp, strTruthy, he]

/-- C3: for every well-formed (non-empty) identity and every random draw
`num / den < 1`, issuing an OTP always succeeds: the generated code is the
decimal string of a value in 100000–999999 (6 characters, all digits, no
leading zero), an entry for the identity is stored whose expiry is the
issuance time plus exactly 5 minutes (300000 ms), and the code is returned
(handed to the email transport). -/
theorem send_otp_always_stores_six_digit_code
    (st : St) (e : String) (num den : Nat) (emailOk : Bool) (now : Nat)
    (he : e ≠ "") (hnum : num < den) :
    ∃ v : Nat,
      generateOtp num den = Nat.repr v
      ∧ 100000 ≤ v ∧ v ≤ 999999
      ∧ (Nat.repr v).length = 6
      ∧ (∀ c ∈ (Nat.repr v).data, c.isDigit = true)
      ∧ (Nat.repr v).data.head? ≠ some '0'
      ∧ List.lookup e (sendOtp st (some e) num den emailOk now).st.otps =
          some ⟨generateOtp num den, now + 5 * 60 * 1000⟩
      ∧ (sendOtp st (some e) num den emailOk now).emailed =
          some (e, generateOtp num den) := by
  have hden : 0 < den := lt_of_le_of_lt (Nat.zero_le num) hnum
  have hlt : num * 900000 / den < 900000 := by
    rw [Nat.div_lt_iff_lt_mul hden]
    calc num * 900000 < den * 900000 :=
          (Nat.mul_lt_mul_right (by norm_num)).mpr hnum
      _ = 900000 * den := Nat.mul_comm den 900000
  obtain ⟨q, hq⟩ : ∃ q : Nat, num * 900000 / den = q := ⟨_, rfl⟩
  rw [hq] at hlt
  refine ⟨100000 + q, by rw [generateOtp, hq], by omega, by omega,
    repr_length_six (100000 + q) (by omega) (by omega),
    repr_all_digits _,
    repr_head_nonzero (100000 + q) (by omega) (by omega), ?_, ?_⟩
  · rw [sendOtp_st_eq st e num den emailOk now he]
    exact lookup_otpsSet_self st.otps e _
  · exact sendOtp_emailed_eq st e num den emailOk now he

/-- Witness for C3 at a concrete input. -/
theorem send_otp_always_stores_six_digit_code_witness :
    ∃ v : Nat,
      generateOtp 314159 1000000 = Nat.repr v
      ∧ 100000 ≤ v ∧ v ≤ 999999
      ∧ (Nat.repr v).length = 6
      ∧ (∀ c ∈ (Nat.repr v).data, c.isDigit = true)
      ∧ (Nat.repr v).data.head? ≠ some '0'
      ∧ List.lookup "a@x.com"
          (sendOtp ⟨[], [], [], 0⟩ (some "a@x.com") 314159 1000000 true 7).st.otps =
          some ⟨generateOtp 314159 1000000, 7 + 5 * 60 * 1000⟩
      ∧ (sendOtp ⟨[], [], [], 0⟩ (some "a@x.com") 314159 1000000 true 7).emailed =
          some ("a@x.com", generateOtp 314159 1000000) :=
  send_otp_always_stores_six_digit_code ⟨[], [], [], 0⟩ "a@x.com" 314159 1000000 true 7
    (by decide) (by norm_num)

/-! ### Registry invariant under whole request sequences -/

theorem sendOtp_otps_cases (st : St) (e : Option String) (n d : Nat)
    (ok : Bool) (now : Nat) :
    (sendOtp st e n d ok now).st.otps = st.otps
    ∨ ∃ k v, (sendOtp st e n d ok now).st.otps = otpsSet st.otps k v := by
  by_cases h : (!strTruthy e) = true
  · left
    simp [sendOtp, h]
  · right
    refine ⟨e.getD "", ⟨generateOtp n d, now + 5 * 60 * 1000⟩, ?_⟩
    cases ok <;> simp [sendOtp, h]

theorem signup_otps_cases (st : St) (e p o : Option String) (salt now : Nat) :
    (signup st e p o salt now).2.otps = st.otps
    ∨ ∃ k, (signup st e p o salt now).2.otps = otpsDel st.otps k := by
  by_cases h : (!strTruthy e || !strTruthy p || !strTruthy o) = true
  · left
    simp [signup, h]
  · by_cases hg : otpGateFails st.otps (e.getD "") (o.getD "") now = true
    · left
      simp [signup, h, hg]
    · cases hu : getUserByEmail st.users (e.getD "") with
      | none =>
        right
        exact ⟨e.getD "", by simp [signup, h, hg, hu]⟩
      | some u =>
        left
        simp [signup, h, hg, hu]

theorem login_otps_eq (st : St) (e p : Option String) :
    (login st e p).2.otps = st.otps := by
  by_cases h : (!strTruthy e || !strTruthy p) = true
  · simp [login, h]
  · cases hu : getUserByEmail st.users (e.getD "") with
    | none => simp [login, h, hu]
    | some u =>
      by_cases hc : (!bcryptCompare (p.getD "") u.password_hash) = true
      · simp [login, h, hu, hc]
      · simp [login, h, hu, hc]

theorem reset_otps_cases (st : St) (e o np : Option String) (salt now : Nat) :
    (resetPassword st e o np salt now).2.otps = st.otps
    ∨ ∃ k, (resetPassword st e o np salt now).2.otps = otpsDel st.otps k := by
  by_cases h : (!strTruthy e || !strTruthy o || !strTruthy np) = true
  · left
    simp [resetPassword, h]
  · by_cases hg : otpGateFails st.otps (e.getD "") (o.getD "") now = true
    · left
      simp [resetPassword, h, hg]
    · cases hu : getUserByEmail st.users (e.getD "") with
      | none =>
        left
        simp [resetPassword, h, hg, hu]
      | some u =>
        right
        exact ⟨e.getD "", by simp [resetPassword, h, hg, hu]⟩

theorem saveProfile_otps_eq (st : St) (body : ProfileBody) :
    (saveProfile st body).2.otps = st.otps := by
  by_cases h : (!strTruthy body.email) = true
  · simp [saveProfile, h]
  · cases hu : getUserByEmail st.users (body.email.getD "") with
    | none => simp [saveProfile, h, hu]
    | some u => simp [saveProfile, h, hu]

theorem applyOp_otps_cases (st : St) (op : Op) :
    (applyOp st op).otps = st.otps
    ∨ (∃ k v, (applyOp st op).otps = otpsSet st.otps k v)
    ∨ (∃ k, (applyOp st op).otps = otpsDel st.otps k) := by
  cases op with
  | opSendOtp e n d ok now =>
    rcases sendOtp_otps_cases st e n d ok now with h | ⟨k, v, h⟩
    · exact Or.inl h
    · exact Or.inr (Or.inl ⟨k, v, h⟩)
  | opSignup e p o s now =>
    rcases signup_otps_cases st e p o s now with h | ⟨k, h⟩
    · exact Or.inl h
    · exact Or.inr (Or.inr ⟨k, h⟩)
  | opLogin e p => exact Or.inl (login_otps_eq st e p)
  | opReset e o np s now =>
    rcases reset_otps_cases st e o np s now with h | ⟨k, h⟩
    · exact Or.inl h
    · exact Or.inr (Or.inr ⟨k, h⟩)
  | opSaveProfile body => exact Or.inl (saveProfile_otps_eq st body)

theorem nodup_applyOp (st : St) (op : Op)
    (h : (otpsKeys st.otps).Nodup) : (otpsKeys (applyOp st op).otps).Nodup := by
  rcases applyOp_otps_cases st op with he | ⟨k, v, he⟩ | ⟨k, he⟩ <;> rw [he]
  · exact h
  · exact nodup_otpsKeys_set _ _ _ h
  · exact nodup_otpsKeys_del _ _ h

theorem nodup_runOps (st : St) (ops : List Op)
    (h : (otpsKeys st.otps).Nodup) : (otpsKeys (runOps st ops).otps).Nodup := by
  induction ops generalizing st with
  | nil => exact h
  | cons op t ih => exact ih _ (nodup_applyOp st op h)

/-- C4: across every sequence of issue / signup / login / reset-password /
profile-save requests, the registry keeps at most one live entry per
identity (key-list stays duplicate-free); issuing for an identity that
already has an entry overwrites it in place (same key set, new entry
looked up), and no operation other than issuance ever adds a key. -/
theorem otp_registry_at_most_one_entry_per_identity :
    (∀ (st : St) (ops : List Op), (otpsKeys st.otps).Nodup →
        (otpsKeys (runOps st ops).otps).Nodup)
    ∧ (∀ (m : Otps) (k : String) (v : OtpEntry), k ∈ otpsKeys m →
        otpsKeys (otpsSet m k v) = otpsKeys m ∧
          List.lookup k (otpsSet m k v) = some v)
    ∧ (∀ (st : St) (op : Op), (∀ e n d ok now, op ≠ .opSendOtp e n d ok now) →
        otpsKeys (applyOp st op).otps ⊆ otpsKeys st.otps) := by
  refine ⟨nodup_runOps, ?_, ?_⟩
  · intro m k v hk
    exact ⟨otpsKeys_set_of_mem m k v ((mem_otpsKeys_iff_any m k).mp hk),
      lookup_otpsSet_self m k v⟩
  · intro st op hop
    cases op with
    | opSendOtp e n d ok now => exact absurd rfl (hop e n d ok now)
    | opSignup e p o s now =>
      rcases signup_otps_cases st e p o s now with h | ⟨k, h⟩ <;> rw [applyOp, h]
      · exact fun a ha => ha
      · exact (otpsKeys_del_sublist st.otps k).subset
    | opLogin e p =>
      rw [applyOp, login_otps_eq st e p]
      exact fun a ha => ha
    | opReset e o np s now =>
      rcases reset_otps_cases st e o np s now with h | ⟨k, h⟩ <;> rw [applyOp, h]
      · exact fun a ha => ha
      · exact (otpsKeys_del_sublist st.otps k).subset
    | opSaveProfile body =>
      rw [applyOp, saveProfile_otps_eq st body]
      exact fun a ha => ha

/-- Witness for C4 at concrete inputs: a two-request sequence (issue then
re-issue for the same identity) keeps the key list duplicate-free, the
overwrite semantics at a concrete registry, and a concrete login adds no
keys. -/
theorem otp_registry_at_most_one_entry_per_identity_witness :
    (otpsKeys (runOps ⟨[], [], [], 0⟩
        [.opSendOtp (some "a@x.com") 0 1 true 0,
         .opSendOtp (some "a@x.com") 1 2 true 9]).otps).Nodup
    ∧ (otpsKeys (otpsSet [("a@x.com", ⟨"111111", 5⟩)] "a@x.com" ⟨"222222", 9⟩) =
          otpsKeys [("a@x.com", OtpEntry.mk "111111" 5)] ∧
        List.lookup "a@x.com" (otpsSet [("a@x.com", ⟨"111111", 5⟩)] "a@x.com" ⟨"222222", 9⟩) =
          some ⟨"222222", 9⟩)
    ∧ otpsKeys (applyOp ⟨[("a@x.com", ⟨"111111", 5⟩)], [], [], 0⟩
          (.opLogin (some "b@x.com") (some "pw"))).otps ⊆
        otpsKeys ([("a@x.com", OtpEntry.mk "111111" 5)]) :=
  ⟨otp_registry_at_most_one_entry_per_identity.1 ⟨[], [], [], 0⟩
      [.opSendOtp (some "a@x.com") 0 1 true 0, .opSendOtp (some "a@x.com") 1 2 true 9]
      (by decide),
    otp_registry_at_most_one_entry_per_identity.2.1
      [("a@x.com", ⟨"111111", 5⟩)] "a@x.com" ⟨"222222", 9⟩ (by decide),
    otp_registry_at_most_one_entry_per_identity.2.2
      ⟨[("a@x.com", ⟨"111111", 5⟩)], [], [], 0⟩
      (.opLogin (some "b@x.com") (some "pw"))
      (fun e n d ok now h => Op.noConfusion h)⟩

/-! ### Storage helper lemmas -/

theorem getUserByEmail_append_none (users : List UserRow) (e : String) (row : UserRow)
    (h : getUserByEmail users e = none) :
    getUserByEmail (users ++ [row]) e =
      if row.email == e then some row else none := by
  unfold getUserByEmail at h ⊢
  rw [List.find?_append, h]
  cases hr : (row.email == e) <;> simp [List.find?, hr]

theorem getUserByEmail_map_preserve (users : List UserRow) (e : String)
    (f : UserRow → UserRow) (hf : ∀ r, (f r).email = r.email) :
    getUserByEmail (users.map f) e = (getUserByEmail users e).map f := by
  unfold getUserByEmail
  rw [List.find?_map]
  have hp : ((fun u => u.email == e) ∘ f) = fun r => r.email == e := by
    funext r
    simp [Function.comp, hf r]
  rw [hp]

theorem signup_success_eq (st : St) (e pw code : String) (salt now : Nat)
    (he : e ≠ "") (hpw : pw ≠ "") (hc : code ≠ "")
    (hg : otpGateFails st.otps e code now = false)
    (hu : getUserByEmail st.users e = none) :
    signup st (some e) (some pw) (some code) salt now =
      (.ok "Signup successful",
        { st with
            users := st.users ++
              [{ id := st.nextId, email := e, password_hash := bcryptHash pw salt }],
            nextId := st.nextId + 1,
            otps := otpsDel st.otps e }) := by
  simp [signup, strTruthy, he, hpw, hc, hg, hu]

/-- C5: a signup for an identity not in storage, with all three fields
present and a gate-passing code, creates exactly one account row keyed by
that identity whose credential is the bcrypt hash of the submitted
password (a `BcryptHash`, never the plaintext string) and whose profile
columns are all NULL; the OTP entry is consumed; a subsequent signup for
the same identity after a new gate-passing OTP cycle mutates nothing and
fails with the conflict error. -/
theorem signup_creates_single_hashed_account
    (st : St) (e pw code : String) (salt now : Nat)
    (he : e ≠ "") (hpw : pw ≠ "") (hc : code ≠ "")
    (hg : otpGateFails st.otps e code now = false)
    (hu : getUserByEmail st.users e = none) :
    (signup st (some e) (some pw) (some code) salt now).1 = .ok "Signup successful"
    ∧ ((signup st (some e) (some pw) (some code) salt now).2.users.filter
        (fun u => u.email == e)).length = 1
    ∧ getUserByEmail (signup st (some e) (some pw) (some code) salt now).2.users e =
        some { id := st.nextId, email := e, password_hash := bcryptHash pw salt,
               name := none, phone := none, age := none, age_group := none,
               dob := none, country := none, state := none, city := none,
               pincode := none, role := none, work_tags := none }
    ∧ List.lookup e (signup st (some e) (some pw) (some code) salt now).2.otps = none
    ∧ (∀ (st2 : St) (pw2 code2 : String) (salt2 now2 : Nat),
        st2.users = (signup st (some e) (some pw) (some code) salt now).2.users →
        pw2 ≠ "" → code2 ≠ "" →
        otpGateFails st2.otps e code2 now2 = false →
        signup st2 (some e) (some pw2) (some code2) salt2 now2 =
          (.err 400 "User already exists, please login", st2)) := by
  rw [signup_success_eq st e pw code salt now he hpw hc hg hu]
  have hrow : getUserByEmail
      (st.users ++ [{ id := st.nextId, email := e, password_hash := bcryptHash pw salt }]) e =
      some { id := st.nextId, email := e, password_hash := bcryptHash pw salt } := by
    rw [getUserByEmail_append_none st.users e _ hu]
    simp
  have hfil : st.users.filter (fun u => u.email == e) = [] := by
    rw [List.filter_eq_nil_iff]
    intro u hmem
    have := List.find?_eq_none.mp hu u hmem
    simpa using this
  refine ⟨rfl, ?_, ?_, ?_, ?_⟩
  · simp only [List.filter_append, hfil, List.nil_append]
    simp
  · exact hrow
  · exact lookup_otpsDel_self st.otps e
  · intro st2 pw2 code2 salt2 now2 husers hpw2 hc2 hg2
    have hu2 : getUserByEmail st2.users e =
        some { id := st.nextId, email := e, password_hash := bcryptHash pw salt } := by
      rw [husers]
      exact hrow
    simp [signup, strTruthy, hpw2, hc2, hg2, hu2, (by simpa using he : e ≠ "")]

/-- Witness for C5 at concrete inputs. -/
theorem signup_creates_single_hashed_account_witness :
    ((signup ⟨[("a@x.com", ⟨"123456", 100⟩)], [], [], 0⟩
        (some "a@x.com") (some "pw") (some "123456") 3 50).1 = .ok "Signup successful")
    ∧ (((signup ⟨[("a@x.com", ⟨"123456", 100⟩)], [], [], 0⟩
        (some "a@x.com") (some "pw") (some "123456") 3 50).2.users.filter
          (fun u => u.email == "a@x.com")).length = 1)
    ∧ (getUserByEmail (signup ⟨[("a@x.com", ⟨"123456", 100⟩)], [], [], 0⟩
          (some "a@x.com") (some "pw") (some "123456") 3 50).2.users "a@x.com" =
        some { id := 0, email := "a@x.com", password_hash := bcryptHash "pw" 3,
               name := none, phone := none, age := none, age_group := none,
               dob := none, country := none, state := none, city := none,
               pincode := none, role := none, work_tags := none })
    ∧ (List.lookup "a@x.com" (signup ⟨[("a@x.com", ⟨"123456", 100⟩)], [], [], 0⟩
          (some "a@x.com") (some "pw") (some "123456") 3 50).2.otps = none)
    ∧ (∀ (st2 : St) (pw2 code2 : String) (salt2 now2 : Nat),
        st2.users = (signup ⟨[("a@x.com", ⟨"123456", 100⟩)], [], [], 0⟩
          (some "a@x.com") (some "pw") (some "123456") 3 50).2.users →
        pw2 ≠ "" → code2 ≠ "" →
        otpGateFails st2.otps "a@x.com" code2 now2 = false →
        signup st2 (some "a@x.com") (some pw2) (some code2) salt2 now2 =
          (.err 400 "User already exists, please login", st2)) :=
  signup_creates_single_hashed_account ⟨[("a@x.com", ⟨"123456", 100⟩)], [], [], 0⟩
    "a@x.com" "pw" "123456" 3 50 (by decide) (by decide) (by decide) (by decide) (by decide)

/-- C6: with both fields present, login on a missing identity reports the
distinct not-found failure and changes nothing; on a wrong password it
reports the credential failure and appends no audit record; on a correct
password it appends exactly one login event for that account and reports
success.  The whole workflow neither reads nor mutates the OTP registry:
its outcome is the same for every registry content, and the registry is
returned untouched. -/
theorem login_cases_and_single_audit_record
    (st : St) (e pw : String) (he : e ≠ "") (hpw : pw ≠ "") :
    (login st (some e) (some pw)).2.otps = st.otps
    ∧ (∀ otps2, login { st with otps := otps2 } (some e) (some pw) =
        ((login st (some e) (some pw)).1,
          { (login st (some e) (some pw)).2 with otps := otps2 }))
    ∧ (getUserByEmail st.users e = none →
        login st (some e) (some pw) = (.err 404 "User not found, please sign up", st))
    ∧ (Resp.err 404 "User not found, please sign up" ≠ Resp.err 400 "Invalid password")
    ∧ (∀ u, getUserByEmail st.users e = some u →
        (bcryptCompare pw u.password_hash = false →
          login st (some e) (some pw) = (.err 400 "Invalid password", st))
        ∧ (bcryptCompare pw u.password_hash = true →
          login st (some e) (some pw) =
            (.ok "Login successful",
              { st with login_events := st.login_events ++ [u.id] }))) := by
  refine ⟨login_otps_eq st (some e) (some pw), ?_, ?_, by decide, ?_⟩
  · intro otps2
    cases hu : getUserByEmail st.users e with
    | none => simp [login, strTruthy, he, hpw, hu]
    | some u =>
      cases hcmp : bcryptCompare pw u.password_hash with
      | false => simp [login, strTruthy, he, hpw, hu, hcmp]
      | true => simp [login, strTruthy, he, hpw, hu, hcmp]
  · intro hu
    simp [login, strTruthy, he, hpw, hu]
  · intro u hu
    constructor
    · intro hcmp
      simp [login, strTruthy, he, hpw, hu, hcmp]
    · intro hcmp
      simp [login, strTruthy, he, hpw, hu, hcmp]

/-- Witness for C6 at concrete inputs. -/
theorem login_cases_and_single_audit_record_witness :
    ((login ⟨[], [{ id := 7, email := "a@x.com", password_hash := bcryptHash "pw" 0 }], [], 8⟩
        (some "a@x.com") (some "pw")).2.otps = [])
    ∧ (∀ otps2,
        login { (⟨[], [{ id := 7, email := "a@x.com", password_hash := bcryptHash "pw" 0 }], [], 8⟩ : St)
            with otps := otps2 } (some "a@x.com") (some "pw") =
          ((login ⟨[], [{ id := 7, email := "a@x.com", password_hash := bcryptHash "pw" 0 }], [], 8⟩
              (some "a@x.com") (some "pw")).1,
            { (login ⟨[], [{ id := 7, email := "a@x.com", password_hash := bcryptHash "pw" 0 }], [], 8⟩
                (some "a@x.com") (some "pw")).2 with otps := otps2 }))
    ∧ (getUserByEmail [{ id := 7, email := "a@x.com", password_hash := bcryptHash "pw" 0 }] "a@x.com" = none →
        login ⟨[], [{ id := 7, email := "a@x.com", password_hash := bcryptHash "pw" 0 }], [], 8⟩
          (some "a@x.com") (some "pw") =
          (.err 404 "User not found, please sign up",
            ⟨[], [{ id := 7, email := "a@x.com", password_hash := bcryptHash "pw" 0 }], [], 8⟩))
    ∧ (Resp.err 404 "User not found, please sign up" ≠ Resp.err 400 "Invalid password")
    ∧ (∀ u, getUserByEmail [{ id := 7, email := "a@x.com", password_hash := bcryptHash "pw" 0 }] "a@x.com" = some u →
        (bcryptCompare "pw" u.password_hash = false →
          login ⟨[], [{ id := 7, email := "a@x.com", password_hash := bcryptHash "pw" 0 }], [], 8⟩
            (some "a@x.com") (some "pw") =
            (.err 400 "Invalid password",
              ⟨[], [{ id := 7, email := "a@x.com", password_hash := bcryptHash "pw" 0 }], [], 8⟩))
        ∧ (bcryptCompare "pw" u.password_hash = true →
          login ⟨[], [{ id := 7, email := "a@x.com", password_hash := bcryptHash "pw" 0 }], [], 8⟩
            (some "a@x.com") (some "pw") =
            (.ok "Login successful",
              { (⟨[], [{ id := 7, email := "a@x.com", password_hash := bcryptHash "pw" 0 }], [], 8⟩ : St)
                  with login_events := [] ++ [u.id] }))) :=
  login_cases_and_single_audit_record
    ⟨[], [{ id := 7, email := "a@x.com", password_hash := bcryptHash "pw" 0 }], [], 8⟩
    "a@x.com" "pw" (by decide) (by decide)

theorem reset_success_eq (st : St) (e code npw : String) (salt now : Nat)
    (he : e ≠ "") (hc : code ≠ "") (hnpw : npw ≠ "")
    (hg : otpGateFails st.otps e code now = false)
    (u : UserRow) (hu : getUserByEmail st.users e = some u) :
    resetPassword st (some e) (some code) (some npw) salt now =
      (.ok "Password reset successful",
        { st with
            users := st.users.map (fun r =>
              if r.id == u.id then { r with password_hash := bcryptHash npw salt } else r),
            otps := otpsDel st.otps e }) := by
  simp [resetPassword, strTruthy, he, hc, hnpw, hg, hu]

/-- C7: a reset-password request for an existing account, with all three
fields present and a gate-passing code, overwrites exactly that account's
stored hash with the hash of the new password; afterwards the new
plaintext verifies against the stored hash and any plaintext that
verified before (and differs from the new password) no longer does; every
other field of the row, and every row with a different id, is
unchanged. -/
theorem reset_password_overwrites_hash
    (st : St) (e code npw : String) (salt now : Nat)
    (he : e ≠ "") (hc : code ≠ "") (hnpw : npw ≠ "")
    (hg : otpGateFails st.otps e code now = false)
    (u : UserRow) (hu : getUserByEmail st.users e = some u) :
    (resetPassword st (some e) (some code) (some npw) salt now).1 =
        .ok "Password reset successful"
    ∧ (resetPassword st (some e) (some code) (some npw) salt now).2.users =
        st.users.map (fun r =>
          if r.id == u.id then { r with password_hash := bcryptHash npw salt } else r)
    ∧ getUserByEmail (resetPassword st (some e) (some code) (some npw) salt now).2.users e =
        some { u with password_hash := bcryptHash npw salt }
    ∧ bcryptCompare npw (bcryptHash npw salt) = true
    ∧ (∀ old, bcryptCompare old u.password_hash = true → old ≠ npw →
        bcryptCompare old (bcryptHash npw salt) = false) := by
  rw [reset_success_eq st e code npw salt now he hc hnpw hg u hu]
  refine ⟨rfl, rfl, ?_, ?_, ?_⟩
  · have hf : ∀ r : UserRow,
        ((fun r => if r.id == u.id then { r with password_hash := bcryptHash npw salt } else r) r).email
          = r.email := by
      intro r
      by_cases h : (r.id == u.id) = true
      · simp [h]
      · simp [h]
    rw [getUserByEmail_map_preserve st.users e _ hf, hu]
    simp
  · simp [bcryptCompare, bcryptHash]
  · intro old hold hne
    simp [bcryptCompare, bcryptHash, hne]

/-- Witness for C7 at concrete inputs. -/
theorem reset_password_overwrites_hash_witness :
    ((resetPassword
        ⟨[("a@x.com", ⟨"123456", 100⟩)],
          [{ id := 7, email := "a@x.com", password_hash := bcryptHash "oldpw" 0 }], [], 8⟩
        (some "a@x.com") (some "123456") (some "newpw") 1 50).1 =
      .ok "Password reset successful")
    ∧ ((resetPassword
        ⟨[("a@x.com", ⟨"123456", 100⟩)],
          [{ id := 7, email := "a@x.com", password_hash := bcryptHash "oldpw" 0 }], [], 8⟩
        (some "a@x.com") (some "123456") (some "newpw") 1 50).2.users =
        [{ id := 7, email := "a@x.com", password_hash := bcryptHash "oldpw" 0 }].map (fun r =>
          if r.id == 7 then { r with password_hash := bcryptHash "newpw" 1 } else r))
    ∧ (getUserByEmail (resetPassword
          ⟨[("a@x.com", ⟨"123456", 100⟩)],
            [{ id := 7, email := "a@x.com", password_hash := bcryptHash "oldpw" 0 }], [], 8⟩
          (some "a@x.com") (some "123456") (some "newpw") 1 50).2.users "a@x.com" =
        some { ({ id := 7, email := "a@x.com", password_hash := bcryptHash "oldpw" 0 } : UserRow)
            with password_hash := bcryptHash "newpw" 1 })
    ∧ bcryptCompare "newpw" (bcryptHash "newpw" 1) = true
    ∧ (∀ old, bcryptCompare old (bcryptHash "oldpw" 0) = true → old ≠ "newpw" →
        bcryptCompare old (bcryptHash "newpw" 1) = false) :=
  reset_password_overwrites_hash
    ⟨[("a@x.com", ⟨"123456", 100⟩)],
      [{ id := 7, email := "a@x.com", password_hash := bcryptHash "oldpw" 0 }], [], 8⟩
    "a@x.com" "123456" "newpw" 1 50 (by decide) (by decide) (by decide) (by decide)
    { id := 7, email := "a@x.com", password_hash := bcryptHash "oldpw" 0 } (by decide)

/-- C8: when the email transport call fails during OTP issuance, the
handler reports the dependency failure (500), but the entry was stored
before the send was attempted and remains in the registry; the gate
shared by signup and reset-password accepts that identity/code pair at
any time up to 5 minutes after issuance. -/
theorem send_otp_email_failure_keeps_entry
    (st : St) (e : String) (num den now : Nat) (he : e ≠ "") :
    (sendOtp st (some e) num den false now).resp = .err 500 "Failed to send email OTP"
    ∧ List.lookup e (sendOtp st (some e) num den false now).st.otps =
        some ⟨generateOtp num den, now + 5 * 60 * 1000⟩
    ∧ (∀ now2, now2 ≤ now + 5 * 60 * 1000 →
        otpGateFails (sendOtp st (some e) num den false now).st.otps e
          (generateOtp num den) now2 = false) := by
  have hlk : List.lookup e (sendOtp st (some e) num den false now).st.otps =
      some ⟨generateOtp num den, now + 5 * 60 * 1000⟩ := by
    rw [sendOtp_st_eq st e num den false now he]
    exact lookup_otpsSet_self st.otps e _
  refine ⟨by simp [sendOtp, strTruthy, he], hlk, ?_⟩
  intro now2 hnow2
  exact (otpGateFails_eq_false_iff _ e (generateOtp num den) now2).mpr
    ⟨⟨generateOtp num den, now + 5 * 60 * 1000⟩, hlk, rfl, hnow2⟩

/-- Witness for C8 at concrete inputs. -/
theorem send_otp_email_failure_keeps_entry_witness :
    ((sendOtp ⟨[], [], [], 0⟩ (some "a@x.com") 1 2 false 10).resp =
        .err 500 "Failed to send email OTP")
    ∧ (List.lookup "a@x.com" (sendOtp ⟨[], [], [], 0⟩ (some "a@x.com") 1 2 false 10).st.otps =
        some ⟨generateOtp 1 2, 10 + 5 * 60 * 1000⟩)
    ∧ (∀ now2, now2 ≤ 10 + 5 * 60 * 1000 →
        otpGateFails (sendOtp ⟨[], [], [], 0⟩ (some "a@x.com") 1 2 false 10).st.otps
          "a@x.com" (generateOtp 1 2) now2 = false) :=
  send_otp_email_failure_keeps_entry ⟨[], [], [], 0⟩ "a@x.com" 1 2 10 (by decide)

/-! ### Split/join round-trip lemmas for the comma-separated tag field -/

theorem splitCommaAux_ne_nil (l : List Char) : splitCommaAux l ≠ [] := by
  cases l with
  | nil => simp [splitCommaAux]
  | cons c rest =>
    cases h : splitCommaAux rest with
    | nil => simp [splitCommaAux, h]
    | cons hd tl =>
      by_cases hc : (c == ',') = true
      · simp [splitCommaAux, h, hc]
      · simp [splitCommaAux, h, hc]

theorem splitCommaAux_no_comma (l : List Char) (h : ',' ∉ l) :
    splitCommaAux l = [l] := by
  induction l with
  | nil => rfl
  | cons c rest ih =>
    have hcne : c ≠ ',' := by
      intro hh
      exact h (by rw [hh]; exact List.mem_cons_self ',' rest)
    have hrest : ',' ∉ rest := fun hh => h (List.mem_cons_of_mem c hh)
    have hc : (c == ',') = false := by simp [hcne]
    simp [splitCommaAux, ih hrest, hc]

theorem splitCommaAux_append (l r : List Char) (h : ',' ∉ l) :
    splitCommaAux (l ++ ',' :: r) = l :: splitCommaAux r := by
  induction l with
  | nil =>
    cases hs : splitCommaAux r with
    | nil => exact absurd hs (splitCommaAux_ne_nil r)
    | cons hd tl => simp [splitCommaAux, hs]
  | cons c rest ih =>
    have hcne : c ≠ ',' := by
      intro hh
      exact h (by rw [hh]; exact List.mem_cons_self ',' rest)
    have hrest : ',' ∉ rest := fun hh => h (List.mem_cons_of_mem c hh)
    have hc : (c == ',') = false := by simp [hcne]
    rw [List.cons_append]
    simp [splitCommaAux, ih hrest, hc]

theorem splitCommaAux_join (ls : List (List Char)) (hne : ls ≠ [])
    (h : ∀ l ∈ ls, ',' ∉ l) :
    splitCommaAux (joinCommaAux ls) = ls := by
  induction ls with
  | nil => exact absurd rfl hne
  | cons x xs ih =>
    cases xs with
    | nil =>
      simp only [joinCommaAux]
      exact splitCommaAux_no_comma x (h x (List.mem_cons_self x []))
    | cons y ys =>
      simp only [joinCommaAux]
      rw [splitCommaAux_append x _ (h x (List.mem_cons_self x (y :: ys)))]
      rw [ih (by simp) (fun l hl => h l (List.mem_cons_of_mem x hl))]

theorem joinCommaAux_ne_nil (ls : List (List Char)) (hne : ls ≠ [])
    (h : ∀ l ∈ ls, l ≠ []) :
    joinCommaAux ls ≠ [] := by
  cases ls with
  | nil => exact absurd rfl hne
  | cons x xs =>
    cases xs with
    | nil => exact h x (List.mem_cons_self x [])
    | cons y ys => simp [joinCommaAux]

theorem jsSplitComma_jsJoinComma (xs : List String) (hne : xs ≠ [])
    (h : ∀ x ∈ xs, ',' ∉ x.data) :
    jsSplitComma (jsJoinComma xs) = xs := by
  unfold jsSplitComma jsJoinComma
  have hdata : (String.mk (joinCommaAux (xs.map String.data))).data =
      joinCommaAux (xs.map String.data) := rfl
  rw [hdata]
  rw [splitCommaAux_join (xs.map String.data) (by simpa using hne)
    (by
      intro l hl
      obtain ⟨x, hx, rfl⟩ := List.mem_map.mp hl
      exact h x hx)]
  rw [List.map_map]
  have : ∀ x ∈ xs, (String.mk ∘ String.data) x = x := by
    intro x _
    rfl
  rw [List.map_congr_left this]
  exact List.map_id' xs

theorem jsJoinComma_ne_empty (xs : List String) (hne : xs ≠ [])
    (h : ∀ x ∈ xs, x ≠ "") :
    jsJoinComma xs ≠ "" := by
  unfold jsJoinComma
  intro hcontra
  have hdata : joinCommaAux (xs.map String.data) = [] :=
    congrArg String.data hcontra
  refine joinCommaAux_ne_nil (xs.map String.data) (by simpa using hne) ?_ hdata
  intro l hl
  obtain ⟨x, hx, rfl⟩ := List.mem_map.mp hl
  intro hd
  exact h x hx (String.ext hd)

/-! ### Profile save / fetch composition -/

theorem getUser_eq_of_found (st : St) (e : String) (he : e ≠ "")
    (u : UserRow) (hu : getUserByEmail st.users e = some u) :
    getUser st (some e) =
      (.ok "",
        some { id := u.id, email := u.email,
               name := cellOrEmpty u.name, phone := cellOrEmpty u.phone,
               age := cellOrEmpty u.age, ageGroup := cellOrEmpty u.age_group,
               dob := cellOrEmpty u.dob, country := cellOrEmpty u.country,
               state := cellOrEmpty u.state, city := cellOrEmpty u.city,
               pincode := cellOrEmpty u.pincode, role := cellOrEmpty u.role,
               workTags :=
                 match u.work_tags with
                 | some s =>
                   if s == "" then [] else (jsSplitComma s).filter (fun t => t != "")
                 | none => [] }) := by
  simp [getUser, strTruthy, he, hu]

theorem saveProfile_success_eq (st : St) (body : ProfileBody) (e : String)
    (hbe : body.email = some e) (he : e ≠ "")
    (u : UserRow) (hu : getUserByEmail st.users e = some u) :
    saveProfile st body =
      (.ok "Profile saved",
        { st with users := st.users.map (fun r =>
            if r.id == u.id then
              { r with
                name := orNull body.name, phone := orNull body.phone,
                age := orNull body.age, age_group := orNull body.ageGroup,
                dob := orNull body.dob, country := orNull body.country,
                state := orNull body.state, city := orNull body.city,
                pincode := orNull body.pincode, role := orNull body.role,
                work_tags :=
                  if jsJoinComma (normTags body.workTags) == "" then none
                  else some (jsJoinComma (normTags body.workTags)) }
            else r) }) := by
  simp [saveProfile, hbe, strTruthy, he, hu]

theorem row_after_saveProfile (st : St) (body : ProfileBody) (e : String)
    (hbe : body.email = some e) (he : e ≠ "")
    (u : UserRow) (hu : getUserByEmail st.users e = some u) :
    getUserByEmail (saveProfile st body).2.users e =
      some { u with
        name := orNull body.name, phone := orNull body.phone,
        age := orNull body.age, age_group := orNull body.ageGroup,
        dob := orNull body.dob, country := orNull body.country,
        state := orNull body.state, city := orNull body.city,
        pincode := orNull body.pincode, role := orNull body.role,
        work_tags :=
          if jsJoinComma (normTags body.workTags) == "" then none
          else some (jsJoinComma (normTags body.workTags)) } := by
  rw [saveProfile_success_eq st body e hbe he u hu]
  have hf : ∀ r : UserRow,
      ((fun r => if r.id == u.id then
          { r with
            name := orNull body.name, phone := orNull body.phone,
            age := orNull body.age, age_group := orNull body.ageGroup,
            dob := orNull body.dob, country := orNull body.country,
            state := orNull body.state, city := orNull body.city,
            pincode := orNull body.pincode, role := orNull body.role,
            work_tags :=
              if jsJoinComma (normTags body.workTags) == "" then none
              else some (jsJoinComma (normTags body.workTags)) }
        else r) r).email = r.email := by
    intro r
    by_cases h : (r.id == u.id) = true
    · simp [h]
    · simp [h]
  rw [getUserByEmail_map_preserve st.users e _ hf, hu]
  simp

theorem getUser_after_saveProfile (st : St) (body : ProfileBody) (e : String)
    (hbe : body.email = some e) (he : e ≠ "")
    (u : UserRow) (hu : getUserByEmail st.users e = some u) :
    (getUser (saveProfile st body).2 (some e)).2 =
      some { id := u.id, email := u.email,
             name := cellOrEmpty (orNull body.name),
             phone := cellOrEmpty (orNull body.phone),
             age := cellOrEmpty (orNull body.age),
             ageGroup := cellOrEmpty (orNull body.ageGroup),
             dob := cellOrEmpty (orNull body.dob),
             country := cellOrEmpty (orNull body.country),
             state := cellOrEmpty (orNull body.state),
             city := cellOrEmpty (orNull body.city),
             pincode := cellOrEmpty (orNull body.pincode),
             role := cellOrEmpty (orNull body.role),
             workTags :=
               if jsJoinComma (normTags body.workTags) == "" then []
               else (jsSplitComma (jsJoinComma (normTags body.workTags))).filter
                 (fun t => t != "") } := by
  rw [getUser_eq_of_found _ e he _ (row_after_saveProfile st body e hbe he u hu)]
  by_cases hts : (jsJoinComma (normTags body.workTags) == "") = true
  · simp [hts]
  · simp [hts]

theorem cellOrEmpty_orNull (v : JsPrim) :
    cellOrEmpty (orNull v) = if v.truthy then v else .vstr "" := by
  by_cases h : v.truthy = true
  · simp [orNull, cellOrEmpty, h]
  · simp only [Bool.not_eq_true] at h
    simp [orNull, cellOrEmpty, h]

theorem jsSplitComma_no_comma (s : String) (h : ',' ∉ s.data) :
    jsSplitComma s = [s] := by
  unfold jsSplitComma
  rw [splitCommaAux_no_comma s.data h]
  rfl

/-- C9: for an existing account, saving a profile whose tag list consists
of non-empty, comma-free strings and then fetching the profile returns
exactly that tag list; an absent or empty tag list reads back as the
empty list; a tag list supplied as a single non-array value (one
non-empty, comma-free string) is normalized to the one-element list and
reads back as it. -/
theorem tags_roundtrip
    (st : St) (e : String) (he : e ≠ "") (u : UserRow)
    (hu : getUserByEmail st.users e = some u)
    (body : ProfileBody) (hbe : body.email = some e) :
    (∀ xs, body.workTags = .arr xs → (∀ x ∈ xs, x ≠ "" ∧ ',' ∉ x.data) →
        ∃ su, (getUser (saveProfile st body).2 (some e)).2 = some su
          ∧ su.workTags = xs)
    ∧ ((body.workTags = .absent ∨ body.workTags = .arr []) →
        ∃ su, (getUser (saveProfile st body).2 (some e)).2 = some su
          ∧ su.workTags = [])
    ∧ (∀ s, body.workTags = .single s → s ≠ "" → ',' ∉ s.data →
        normTags body.workTags = [s]
        ∧ ∃ su, (getUser (saveProfile st body).2 (some e)).2 = some su
          ∧ su.workTags = [s]) := by
  have hmain := getUser_after_saveProfile st body e hbe he u hu
  refine ⟨?_, ?_, ?_⟩
  · intro xs harr hall
    refine ⟨_, hmain, ?_⟩
    show (if jsJoinComma (normTags body.workTags) == "" then []
      else (jsSplitComma (jsJoinComma (normTags body.workTags))).filter
        (fun t => t != "")) = xs
    rw [harr]
    show (if jsJoinComma xs == "" then []
      else (jsSplitComma (jsJoinComma xs)).filter (fun t => t != "")) = xs
    cases xs with
    | nil => rfl
    | cons x t =>
      have hne : (x :: t) ≠ ([] : List String) := by simp
      have hne2 : ∀ y ∈ x :: t, y ≠ "" := fun y hy => (hall y hy).1
      have hnc : ∀ y ∈ x :: t, ',' ∉ y.data := fun y hy => (hall y hy).2
      have hjoin : jsJoinComma (x :: t) ≠ "" := jsJoinComma_ne_empty _ hne hne2
      rw [if_neg (by simpa using hjoin)]
      rw [jsSplitComma_jsJoinComma _ hne hnc]
      rw [List.filter_eq_self.mpr ?_]
      intro a ha
      simp [hne2 a ha]
  · intro habs
    refine ⟨_, hmain, ?_⟩
    show (if jsJoinComma (normTags body.workTags) == "" then []
      else (jsSplitComma (jsJoinComma (normTags body.workTags))).filter
        (fun t => t != "")) = []
    rcases habs with h | h <;> rw [h] <;> rfl
  · intro s hs hsne hsc
    have hnorm : normTags body.workTags = [s] := by
      rw [hs]
      simp [normTags, hsne]
    refine ⟨hnorm, _, hmain, ?_⟩
    show (if jsJoinComma (normTags body.workTags) == "" then []
      else (jsSplitComma (jsJoinComma (normTags body.workTags))).filter
        (fun t => t != "")) = [s]
    rw [hnorm]
    have hone : (jsJoinComma [s]) = s := rfl
    rw [hone]
    rw [if_neg (by simpa using hsne)]
    rw [jsSplitComma_no_comma s hsc]
    simp [hsne]

/-- Witness for C9 at concrete inputs: an existing account, a saved tag
list `["tech", "teaching"]` read back unchanged, an absent list read back
empty, and a single value normalized to a one-element list. -/
theorem tags_roundtrip_witness :
    (∃ su, (getUser (saveProfile
        ⟨[], [{ id := 1, email := "a@x.com", password_hash := bcryptHash "pw" 0 }], [], 2⟩
        { email := some "a@x.com", workTags := .arr ["tech", "teaching"] }).2
        (some "a@x.com")).2 = some su ∧ su.workTags = ["tech", "teaching"])
    ∧ (∃ su, (getUser (saveProfile
        ⟨[], [{ id := 1, email := "a@x.com", password_hash := bcryptHash "pw" 0 }], [], 2⟩
        { email := some "a@x.com" }).2
        (some "a@x.com")).2 = some su ∧ su.workTags = [])
    ∧ (normTags (TagsVal.single "tech") = ["tech"]
      ∧ ∃ su, (getUser (saveProfile
          ⟨[], [{ id := 1, email := "a@x.com", password_hash := bcryptHash "pw" 0 }], [], 2⟩
          { email := some "a@x.com", workTags := .single "tech" }).2
          (some "a@x.com")).2 = some su ∧ su.workTags = ["tech"]) :=
  ⟨(tags_roundtrip
      ⟨[], [{ id := 1, email := "a@x.com", password_hash := bcryptHash "pw" 0 }], [], 2⟩
      "a@x.com" (by decide)
      { id := 1, email := "a@x.com", password_hash := bcryptHash "pw" 0 } (by decide)
      { email := some "a@x.com", workTags := .arr ["tech", "teaching"] } rfl).1
      ["tech", "teaching"] rfl (by decide),
    (tags_roundtrip
      ⟨[], [{ id := 1, email := "a@x.com", password_hash := bcryptHash "pw" 0 }], [], 2⟩
      "a@x.com" (by decide)
      { id := 1, email := "a@x.com", password_hash := bcryptHash "pw" 0 } (by decide)
      { email := some "a@x.com" } rfl).2.1 (Or.inl rfl),
    (tags_roundtrip
      ⟨[], [{ id := 1, email := "a@x.com", password_hash := bcryptHash "pw" 0 }], [], 2⟩
      "a@x.com" (by decide)
      { id := 1, email := "a@x.com", password_hash := bcryptHash "pw" 0 } (by decide)
      { email := some "a@x.com", workTags := .single "tech" } rfl).2.2
      "tech" rfl (by decide) (by decide)⟩

/-- C10: profile save stores SQL NULL for every scalar field whose
submitted value is falsy (the empty string and the number 0 are falsy,
like an omitted field), and profile fetch maps a missing-or-NULL scalar
cell to the empty string; consequently a falsy scalar such as the number
0 written via save is read back as `""`, never as itself. -/
theorem profile_falsy_scalars_stored_null
    (st : St) (e : String) (he : e ≠ "") (u : UserRow)
    (hu : getUserByEmail st.users e = some u)
    (body : ProfileBody) (hbe : body.email = some e) :
    ((JsPrim.vstr "").truthy = false ∧ (JsPrim.vnum 0).truthy = false
      ∧ JsPrim.vundef.truthy = false)
    ∧ (∀ v : JsPrim, v.truthy = false → orNull v = none)
    ∧ cellOrEmpty none = .vstr ""
    ∧ (∀ row, getUserByEmail (saveProfile st body).2.users e = some row →
        row.name = orNull body.name ∧ row.phone = orNull body.phone
        ∧ row.age = orNull body.age ∧ row.age_group = orNull body.ageGroup
        ∧ row.dob = orNull body.dob ∧ row.country = orNull body.country
        ∧ row.state = orNull body.state ∧ row.city = orNull body.city
        ∧ row.pincode = orNull body.pincode ∧ row.role = orNull body.role)
    ∧ (∃ su, (getUser (saveProfile st body).2 (some e)).2 = some su
        ∧ su.name = (if body.name.truthy then body.name else .vstr "")
        ∧ su.phone = (if body.phone.truthy then body.phone else .vstr "")
        ∧ su.age = (if body.age.truthy then body.age else .vstr "")
        ∧ su.ageGroup = (if body.ageGroup.truthy then body.ageGroup else .vstr "")
        ∧ su.dob = (if body.dob.truthy then body.dob else .vstr "")
        ∧ su.country = (if body.country.truthy then body.country else .vstr "")
        ∧ su.state = (if body.state.truthy then body.state else .vstr "")
        ∧ su.city = (if body.city.truthy then body.city else .vstr "")
        ∧ su.pincode = (if body.pincode.truthy then body.pincode else .vstr "")
        ∧ su.role = (if body.role.truthy then body.role else .vstr "")
        ∧ (body.age = .vnum 0 → su.age = .vstr "")) := by
  refine ⟨by refine ⟨rfl, rfl, rfl⟩, ?_, rfl, ?_, ?_⟩
  · intro v hv
    simp [orNull, hv]
  · intro row hrow
    rw [row_after_saveProfile st body e hbe he u hu] at hrow
    cases hrow
    exact ⟨rfl, rfl, rfl, rfl, rfl, rfl, rfl, rfl, rfl, rfl⟩
  · refine ⟨_, getUser_after_saveProfile st body e hbe he u hu,
      cellOrEmpty_orNull body.name, cellOrEmpty_orNull body.phone,
      cellOrEmpty_orNull body.age, cellOrEmpty_orNull body.ageGroup,
      cellOrEmpty_orNull body.dob, cellOrEmpty_orNull body.country,
      cellOrEmpty_orNull body.state, cellOrEmpty_orNull body.city,
      cellOrEmpty_orNull body.pincode, cellOrEmpty_orNull body.role, ?_⟩
    intro h0
    show cellOrEmpty (orNull body.age) = .vstr ""
    rw [h0]
    rfl

/-- Witness for C10 at concrete inputs: saving age 0 and an empty-string
name for an existing account stores NULL in both columns and fetch
returns the empty string for both. -/
theorem profile_falsy_scalars_stored_null_witness :
    ((JsPrim.vstr "").truthy = false ∧ (JsPrim.vnum 0).truthy = false
      ∧ JsPrim.vundef.truthy = false)
    ∧ (∀ v : JsPrim, v.truthy = false → orNull v = none)
    ∧ cellOrEmpty none = .vstr ""
    ∧ (∀ row, getUserByEmail (saveProfile
          ⟨[], [{ id := 1, email := "a@x.com", password_hash := bcryptHash "pw" 0 }], [], 2⟩
          { email := some "a@x.com", name := .vstr "", age := .vnum 0 }).2.users "a@x.com" =
            some row →
        row.name = orNull (.vstr "") ∧ row.phone = orNull .vundef
        ∧ row.age = orNull (.vnum 0) ∧ row.age_group = orNull .vundef
        ∧ row.dob = orNull .vundef ∧ row.country = orNull .vundef
        ∧ row.state = orNull .vundef ∧ row.city = orNull .vundef
        ∧ row.pincode = orNull .vundef ∧ row.role = orNull .vundef)
    ∧ (∃ su, (getUser (saveProfile
          ⟨[], [{ id := 1, email := "a@x.com", password_hash := bcryptHash "pw" 0 }], [], 2⟩
          { email := some "a@x.com", name := .vstr "", age := .vnum 0 }).2
          (some "a@x.com")).2 = some su
        ∧ su.name = (if (JsPrim.vstr "").truthy then JsPrim.vstr "" else .vstr "")
        ∧ su.phone = (if JsPrim.vundef.truthy then JsPrim.vundef else .vstr "")
        ∧ su.age = (if (JsPrim.vnum 0).truthy then JsPrim.vnum 0 else .vstr "")
        ∧ su.ageGroup = (if JsPrim.vundef.truthy then JsPrim.vundef else .vstr "")
        ∧ su.dob = (if JsPrim.vundef.truthy then JsPrim.vundef else .vstr "")
        ∧ su.country = (if JsPrim.vundef.truthy then JsPrim.vundef else .vstr "")
        ∧ su.state = (if JsPrim.vundef.truthy then JsPrim.vundef else .vstr "")
        ∧ su.city = (if JsPrim.vundef.truthy then JsPrim.vundef else .vstr "")
        ∧ su.pincode = (if JsPrim.vundef.truthy then JsPrim.vundef else .vstr "")
        ∧ su.role = (if JsPrim.vundef.truthy then JsPrim.vundef else .vstr "")
        ∧ ((JsPrim.vnum 0 : JsPrim) = .vnum 0 → su.age = .vstr "")) :=
  profile_falsy_scalars_stored_null
    ⟨[], [{ id := 1, email := "a@x.com", password_hash := bcryptHash "pw" 0 }], [], 2⟩
    "a@x.com" (by decide)
    { id := 1, email := "a@x.com", password_hash := bcryptHash "pw" 0 } (by decide)
    { email := some "a@x.com", name := .vstr "", age := .vnum 0 } rfl

end Demo
